import Mathlib

set_option maxRecDepth 8000

deriving instance DecidableEq for Except

/-!
Verification development for the cc-vault conversation-log pipeline.

The Rust sources (jsonl_parser.rs, data_importer.rs, search.rs,
db_connection.rs, real_db_connection.rs) are shallowly embedded below:
pure functions become Lean functions, the `dyn DatabaseConnection` trait
object becomes an explicit record of capabilities, timestamps
(`chrono::DateTime<Utc>`) are modelled as `Int` seconds since the epoch,
and fallible Rust functions returning `anyhow::Result<T>` become
`Except String T`.

String handling: the embedding re-implements the handful of `str`
operations the code uses (`to_lowercase`, `trim`, `contains`, splitting
on whitespace) by structural recursion over `String.data`, so concrete
inputs evaluate inside the kernel.  The operations agree with the Rust
ones on the ASCII texts the code manipulates.
-/

namespace CcVault

/-- Whitespace test used by `trim`/whitespace splitting (ASCII whitespace,
matching Rust `char::is_whitespace` on the ASCII range). -/
def wsChar (c : Char) : Bool :=
  c = ' ' || c = '\t' || c = '\n' || c = '\r'

/-- Model of Rust `str::trim`. -/
def strTrim (s : String) : String :=
  ⟨((s.data.dropWhile wsChar).reverse.dropWhile wsChar).reverse⟩

/-- Model of Rust `str::to_lowercase` (ASCII case folding). -/
def strLower (s : String) : String :=
  ⟨s.data.map Char.toLower⟩

/-- `s.is_empty()` on the underlying character list. -/
def strIsEmpty (s : String) : Bool :=
  s.data.isEmpty

/-- Infix search on character lists, the core of Rust `str::contains`. -/
def listHasInfix (needle : List Char) : List Char → Bool
  | [] => needle.isEmpty
  | c :: t => needle.isPrefixOf (c :: t) || listHasInfix needle t

/-- Model of Rust `str::contains` with a string pattern. -/
def strContains (hay needle : String) : Bool :=
  listHasInfix needle.data hay.data

/-- Splits on runs of whitespace, dropping empty pieces; used to model the
`\s+`-separated groups of the relative-date regular expression. -/
def splitWsGo (acc : List Char) : List Char → List (List Char)
  | [] => if acc.isEmpty then [] else [acc.reverse]
  | c :: t =>
    if wsChar c then
      if acc.isEmpty then splitWsGo [] t else acc.reverse :: splitWsGo [] t
    else splitWsGo (c :: acc) t

/-- Whitespace-separated tokens of a string. -/
def splitWsTokens (s : String) : List String :=
  (splitWsGo [] s.data).map (fun cs => ⟨cs⟩)

/-- ASCII decimal digit test (the `\d` of the date regular expression). -/
def isDigitChar (c : Char) : Bool :=
  '0' ≤ c && c ≤ '9'

/-- Numeric value of a digit string (Rust `str::parse::<i64>` on the
all-digit capture; arbitrary precision, so the i64 overflow failure of
gigantic inputs is not modelled — no claim depends on it). -/
def digitsVal (cs : List Char) : Nat :=
  cs.foldl (fun acc c => acc * 10 + (c.toNat - 48)) 0

/-!
## jsonl_parser.rs

`ClaudeMessage` / `MessageContent` mirror the deserialized records.  Two
abstractions, neither observed by any claim:
* the opaque `serde_json::Value` payload `message.content` is modelled by
  its serialized text (`serde_json::to_string` output), so the
  `Option<Value> → Option<String>` serialization step of the importer is
  the identity on the model;
* `timestamp: DateTime<Utc>` is modelled as `Int` epoch seconds.
-/

structure MessageContent where
  role : Option String
  content : Option String
  id : Option String
  content_type : Option String
  model : Option String
deriving DecidableEq

structure ClaudeMessage where
  parent_uuid : Option String
  is_sidechain : Bool
  user_type : String
  cwd : String
  session_id : String
  version : String
  git_branch : Option String
  message_type : String
  message : MessageContent
  uuid : String
  timestamp : Int
deriving DecidableEq

/-- Loop body of `parse_multiple_messages_skip_errors`: walks the line
list carrying the 0-based `enumerate` index, skips blank lines, and pairs
each non-blank line's 1-based number with the decode result of its
trimmed text.  The single-line decoder (`parse_single_message`, i.e.
serde_json deserialization) is a parameter: the source uses it as a black
box here. -/
def skipErrorsGo (parse : String → Except String ClaudeMessage) :
    Nat → List String → List (Nat × Except String ClaudeMessage)
  | _, [] => []
  | line_num, line :: rest =>
    let trimmed := strTrim line
    if strIsEmpty trimmed then
      skipErrorsGo parse (line_num + 1) rest
    else
      (line_num + 1, parse trimmed) :: skipErrorsGo parse (line_num + 1) rest

/-- `JsonlParser::parse_multiple_messages_skip_errors`, over the lines of
the input document. -/
def parse_multiple_messages_skip_errors
    (parse : String → Except String ClaudeMessage) (docLines : List String) :
    List (Nat × Except String ClaudeMessage) :=
  skipErrorsGo parse 0 docLines

/-!
## db_connection.rs / real_db_connection.rs

The `Mutex`-guarded connection state is modelled by `LockState`: acquiring
the lock either yields the guarded value or reports poisoning (a prior
panic while the lock was held).  The connector methods below are the
bodies of the two `DatabaseConnection` impls, written as functions of the
lock-acquisition outcome.  The `"Lock poisoned: {e}"` message is modelled
as `"Lock poisoned"` (the `PoisonError` display is elided).
-/

inductive LockState (α : Type) where
  | acquired (val : α)
  | poisoned
deriving DecidableEq

/-- `DuckDBConnector::is_connected`:
`self.connected.lock().map(|guard| *guard).unwrap_or(false)`. -/
def DuckDBConnector.is_connected (lock : LockState Bool) : Bool :=
  match lock with
  | .acquired b => b
  | .poisoned => false

/-- `DuckDBConnector::connect`: errors on a poisoned lock, otherwise sets
the guarded flag to `true` (the value returned is the new flag). -/
def DuckDBConnector.connect (lock : LockState Bool) : Except String Bool :=
  match lock with
  | .poisoned => .error "Lock poisoned"
  | .acquired _ => .ok true

/-- `DuckDBConnector::disconnect`: errors on a poisoned lock, otherwise
clears the guarded flag. -/
def DuckDBConnector.disconnect (lock : LockState Bool) : Except String Bool :=
  match lock with
  | .poisoned => .error "Lock poisoned"
  | .acquired _ => .ok false

/-- `DuckDBConnector::execute`: fails when `is_connected()` is false
(which, via `unwrap_or(false)`, includes the poisoned case), otherwise
succeeds (mock body). -/
def DuckDBConnector.execute (lock : LockState Bool) (_query : String) :
    Except String Unit :=
  if !DuckDBConnector.is_connected lock then .error "Not connected to database"
  else .ok ()

/-- `RealDuckDBConnection::is_connected`: the guarded value is
`Option<Connection>`; `.lock().map(|guard| guard.is_some()).unwrap_or(false)`. -/
def RealDuckDBConnection.is_connected (lock : LockState (Option Unit)) : Bool :=
  match lock with
  | .acquired c => c.isSome
  | .poisoned => false

/-- `RealDuckDBConnection::connect` (the DuckDB handle itself is opaque,
`Unit`; opening is modelled as succeeding). -/
def RealDuckDBConnection.connect (lock : LockState (Option Unit)) :
    Except String (Option Unit) :=
  match lock with
  | .poisoned => .error "Lock poisoned"
  | .acquired _ => .ok (some ())

/-- `RealDuckDBConnection::disconnect`. -/
def RealDuckDBConnection.disconnect (lock : LockState (Option Unit)) :
    Except String (Option Unit) :=
  match lock with
  | .poisoned => .error "Lock poisoned"
  | .acquired _ => .ok none

/-- `RealDuckDBConnection::execute`: locks directly, so poisoning is its
own error, distinct from the not-connected error; the underlying
`conn.execute` engine call is modelled as succeeding. -/
def RealDuckDBConnection.execute (lock : LockState (Option Unit))
    (_query : String) : Except String Unit :=
  match lock with
  | .poisoned => .error "Lock poisoned"
  | .acquired none => .error "Not connected to database"
  | .acquired (some ()) => .ok ()

/-- `ConnectionConfig` of db_connection.rs. -/
structure ConnectionConfig where
  host : String
  port : Nat
  database : String
  max_retries : Nat
  retry_delay_ms : Nat
deriving DecidableEq

/-- The `Default` impl for `ConnectionConfig`. -/
def ConnectionConfig.default : ConnectionConfig :=
  { host := "localhost", port := 5432, database := "cc_vault"
  , max_retries := 3, retry_delay_ms := 1000 }

/-!
`connect_with_retry` loops calling `self.connect()`; the outcomes of the
successive calls are modelled by an oracle `Nat → Bool` (`oracle k` is
whether the `k`-th call, 0-based, succeeds).  `retryFrom attempts fuel`
is the loop from iteration `attempts` with `fuel = max_retries -
attempts` iterations of `while attempts < max_retries` left; it returns
the result, the number of `connect` attempts made, and the list of sleep
delays (milliseconds) in order.
-/

def retryFrom (cfg : ConnectionConfig) (oracle : Nat → Bool) :
    Nat → Nat → Except String Unit × Nat × List Nat
  | attempts, 0 => (.error "Connection retry logic failed", attempts, [])
  | attempts, fuel + 1 =>
    if oracle attempts then
      (.ok (), attempts + 1, [])
    else
      if cfg.max_retries ≤ attempts + 1 then
        (.error ("Failed to connect after " ++ toString cfg.max_retries
          ++ " attempts"), attempts + 1, [])
      else
        let rest := retryFrom cfg oracle (attempts + 1) fuel
        (rest.1, rest.2.1, cfg.retry_delay_ms * (attempts + 1) :: rest.2.2)

/-- `DuckDBConnector::connect_with_retry`. -/
def connect_with_retry (cfg : ConnectionConfig) (oracle : Nat → Bool) :
    Except String Unit × Nat × List Nat :=
  retryFrom cfg oracle 0 cfg.max_retries

/-!
## The store capability

`DataImporter` and `SearchEngine` hold a `&dyn DatabaseConnection` and
use exactly two of its methods: `is_connected()` and `execute(query)`.
`Conn` is that trait object: a connectivity flag and an execute
capability (whose per-statement outcome is arbitrary, covering mock and
real implementations alike).
-/

structure Conn where
  is_connected : Bool
  execute : String → Except String Unit

/-!
## data_importer.rs

The importer builds its INSERT / UPDATE statements with `format!`,
splicing field values directly into the SQL text (the value-bound
constants `INSERT_CONVERSATION` / `UPDATE_CONVERSATION` with `?`
placeholders exist in the file but are never used by these functions).
`insertQuery` / `updateQuery` are those `format!` expressions.
`message.timestamp.to_rfc3339()` is rendered as the decimal epoch text of
the modelled `Int` timestamp; no claim depends on the textual shape of
timestamps.
-/

/-- `opt.map(|s| format!("'{}'", s)).unwrap_or("NULL".to_string())`. -/
def sqlQuoteOpt (o : Option String) : String :=
  match o with
  | some s => "'" ++ s ++ "'"
  | none => "NULL"

/-- Serialized text of `message.message.content`
(`content.as_ref().map(|v| serde_json::to_string(v).unwrap_or_default())`;
the payload is already modelled by its serialized text, so this is the
field itself). -/
def messageContentText (message : ClaudeMessage) : Option String :=
  message.message.content

/-- The `format!` string of `import_single_conversation`. -/
def insertQuery (message : ClaudeMessage) (project_path : String) : String :=
  "INSERT INTO conversations (uuid, parent_uuid, session_id, user_type, message_type, message_role, message_content, project_path, cwd, git_branch, version, timestamp, is_favorite) VALUES ('"
  ++ message.uuid ++ "', " ++ sqlQuoteOpt message.parent_uuid
  ++ ", '" ++ message.session_id ++ "', '" ++ message.user_type
  ++ "', '" ++ message.message_type ++ "', " ++ sqlQuoteOpt message.message.role
  ++ ", " ++ sqlQuoteOpt (messageContentText message)
  ++ ", '" ++ project_path ++ "', '" ++ message.cwd
  ++ "', " ++ sqlQuoteOpt message.git_branch ++ ", '" ++ message.version
  ++ "', '" ++ toString message.timestamp ++ "', false"

/-- The `format!` string of `update_conversation`. -/
def updateQuery (message : ClaudeMessage) (project_path : String) : String :=
  "UPDATE conversations SET parent_uuid = " ++ sqlQuoteOpt message.parent_uuid
  ++ ", session_id = '" ++ message.session_id
  ++ "', user_type = '" ++ message.user_type
  ++ "', message_type = '" ++ message.message_type
  ++ "', message_role = " ++ sqlQuoteOpt message.message.role
  ++ ", message_content = " ++ sqlQuoteOpt (messageContentText message)
  ++ ", project_path = '" ++ project_path
  ++ "', cwd = '" ++ message.cwd
  ++ "', git_branch = " ++ sqlQuoteOpt message.git_branch
  ++ ", version = '" ++ message.version
  ++ "', timestamp = '" ++ toString message.timestamp
  ++ "', updated_at = CURRENT_TIMESTAMP WHERE uuid = '" ++ message.uuid ++ "'"

/-- `DataImporter::import_single_conversation`. -/
def import_single_conversation (conn : Conn) (message : ClaudeMessage)
    (project_path : String) : Except String Unit :=
  if !conn.is_connected then .error "Database not connected"
  else conn.execute (insertQuery message project_path)

/-- `DataImporter::check_uuid_exists`: after the connectivity check the
body is the mock `Ok(false)` — the `_uuid` argument is never consulted. -/
def check_uuid_exists (conn : Conn) (_uuid : String) : Except String Bool :=
  if !conn.is_connected then .error "Database not connected"
  else .ok false

/-- `DataImporter::update_conversation`. -/
def update_conversation (conn : Conn) (message : ClaudeMessage)
    (project_path : String) : Except String Unit :=
  if !conn.is_connected then .error "Database not connected"
  else conn.execute (updateQuery message project_path)

inductive ImportAction where
  | Inserted
  | Updated
  | Skipped
deriving DecidableEq

/-- `DataImporter::import_with_duplicate_check` (the `?` operator is the
explicit error propagation of the matches). -/
def import_with_duplicate_check (conn : Conn) (message : ClaudeMessage)
    (project_path : String) : Except String ImportAction :=
  match check_uuid_exists conn message.uuid with
  | .error e => .error e
  | .ok true =>
    match update_conversation conn message project_path with
    | .error e => .error e
    | .ok () => .ok .Updated
  | .ok false =>
    match import_single_conversation conn message project_path with
    | .error e => .error e
    | .ok () => .ok .Inserted

structure ImportStats where
  inserted : Nat
  updated : Nat
  skipped : Nat
  errors : Nat
deriving DecidableEq

/-- `ImportStats::new`. -/
def ImportStats.new : ImportStats :=
  { inserted := 0, updated := 0, skipped := 0, errors := 0 }

/-- `ImportStats::total_processed`. -/
def ImportStats.total_processed (stats : ImportStats) : Nat :=
  stats.inserted + stats.updated + stats.skipped

/-- Loop body of `bulk_import`: the `match` over one message's
`import_with_duplicate_check` outcome. -/
def bulkStep (conn : Conn) (project_path : String) (stats : ImportStats)
    (message : ClaudeMessage) : ImportStats :=
  match import_with_duplicate_check conn message project_path with
  | .ok .Inserted => { stats with inserted := stats.inserted + 1 }
  | .ok .Updated => { stats with updated := stats.updated + 1 }
  | .ok .Skipped => { stats with skipped := stats.skipped + 1 }
  | .error _ => { stats with errors := stats.errors + 1 }

/-- `DataImporter::bulk_import`. -/
def bulk_import (conn : Conn) (messages : List ClaudeMessage)
    (project_path : String) : Except String ImportStats :=
  .ok (messages.foldl (bulkStep conn project_path) ImportStats.new)

/-!
## search.rs

`SearchResult.rank` is `f64` in the source, but `search` only stores
fixed literal ranks (0.9, 0.85, 0.8) and no claim computes with them;
ranks are modelled exactly in hundredths as `Int` (90, 85, 80).
Timestamps are `Int` epoch seconds; `Utc::now()` is the explicit `now`
parameter and `chrono::Duration::days(n)` is `n * 86400` seconds.
-/

structure SearchResult where
  id : Int
  uuid : String
  session_id : String
  message_content : Option String
  message_role : Option String
  project_path : String
  timestamp : Int
  rank : Int
  is_favorite : Bool
deriving DecidableEq

inductive SearchMode where
  | And
  | Or
deriving DecidableEq

structure SearchQuery where
  keywords : List String
  mode : SearchMode
  project_filter : Option String
  project_filters : Option (List String)
  date_from : Option Int
  date_to : Option Int
  favorites_only : Option Bool
  limit : Option Nat
deriving DecidableEq

/-- The `Default` impl for `SearchQuery`. -/
def SearchQuery.default : SearchQuery :=
  { keywords := [], mode := .And, project_filter := none
  , project_filters := none, date_from := none, date_to := none
  , favorites_only := none, limit := some 100 }

/-- One day of seconds (`chrono::Duration::days(1)`). -/
def secondsPerDay : Int := 86400

/-- `SearchEngine::build_fts_query`. -/
def build_fts_query (keywords : List String) (mode : SearchMode) : String :=
  match mode with
  | .And => String.intercalate " " keywords
  | .Or => String.intercalate " OR " keywords

/-- The `test_content` text of the mock candidate generation. -/
def testContent : String := "This is a test message about rust programming"

/-- First mock AND-mode candidate (3 days old, rank 0.9). -/
def mockAndHit1 (now : Int) : SearchResult :=
  { id := 1, uuid := "test-uuid-1", session_id := "session-1"
  , message_content := some "This is a test message"
  , message_role := some "user", project_path := "/test/project"
  , timestamp := now - 3 * secondsPerDay, rank := 90, is_favorite := false }

/-- Second mock AND-mode candidate (2 days old, rank 0.85). -/
def mockAndHit3 (now : Int) : SearchResult :=
  { id := 3, uuid := "test-uuid-3", session_id := "session-3"
  , message_content := some "This is a test from old project"
  , message_role := some "user", project_path := "/old/project"
  , timestamp := now - 2 * secondsPerDay, rank := 85, is_favorite := false }

/-- Mock AND-mode candidate of the all-match branch (10 days old, rank 0.8). -/
def mockAndHit2 (now : Int) : SearchResult :=
  { id := 2, uuid := "test-uuid-2", session_id := "session-2"
  , message_content := some testContent
  , message_role := some "user", project_path := "/test/project"
  , timestamp := now - 10 * secondsPerDay, rank := 80, is_favorite := false }

/-- Mock OR-mode candidate (5 days old, rank 0.9). -/
def mockOrHit1 (now : Int) : SearchResult :=
  { id := 1, uuid := "test-uuid-1", session_id := "session-1"
  , message_content := some testContent
  , message_role := some "user", project_path := "/test/project"
  , timestamp := now - 5 * secondsPerDay, rank := 90, is_favorite := false }

/-- The AND arm of `search`'s mock candidate generation. -/
def mockAndResults (now : Int) (keywords : List String) : List SearchResult :=
  let all_keywords_match :=
    keywords.all (fun keyword => strContains (strLower testContent) (strLower keyword))
  if all_keywords_match && keywords.contains "test" then
    [mockAndHit1 now, mockAndHit3 now]
  else if all_keywords_match then
    [mockAndHit2 now]
  else []

/-- The OR arm of `search`'s mock candidate generation. -/
def mockOrResults (now : Int) (keywords : List String) : List SearchResult :=
  let any_keyword_matches :=
    keywords.any (fun keyword => strContains (strLower testContent) (strLower keyword))
  if any_keyword_matches then [mockOrHit1 now] else []

/-- The date-lower-bound retain of `search`
(`results.retain(|r| r.timestamp >= date_from)`). -/
def dateFromStep (query : SearchQuery) (results : List SearchResult) :
    List SearchResult :=
  match query.date_from with
  | some date_from => results.filter (fun r => date_from ≤ r.timestamp)
  | none => results

/-- The date-upper-bound retain of `search`. -/
def dateToStep (query : SearchQuery) (results : List SearchResult) :
    List SearchResult :=
  match query.date_to with
  | some date_to => results.filter (fun r => r.timestamp ≤ date_to)
  | none => results

/-- The project-filter block of `search`: `project_filters`, when set,
takes precedence (and, when non-empty, retains by membership); only when
it is unset does a set `project_filter` retain by equality. -/
def projectFilterStep (query : SearchQuery) (results : List SearchResult) :
    List SearchResult :=
  match query.project_filters with
  | some project_filters =>
    if project_filters.isEmpty then results
    else results.filter (fun r => project_filters.contains r.project_path)
  | none =>
    match query.project_filter with
    | some project_filter =>
      results.filter (fun r => r.project_path == project_filter)
    | none => results

/-- The favorites retain of `search` (applied only when `favorites_only`
is `Some(true)`). -/
def favoritesStep (query : SearchQuery) (results : List SearchResult) :
    List SearchResult :=
  match query.favorites_only with
  | some favorites_only =>
    if favorites_only then results.filter (fun r => r.is_favorite) else results
  | none => results

/-- `SearchEngine::search`: connectivity check, empty-keyword fast path,
mock candidate generation by mode, then the four retain passes in source
order.  (`_fts_query` and `_limit` are computed and unused, as in the
source.) -/
def search (conn : Conn) (now : Int) (query : SearchQuery) :
    Except String (List SearchResult) :=
  if !conn.is_connected then .error "Database not connected"
  else if query.keywords.isEmpty then .ok []
  else
    let _fts_query := build_fts_query query.keywords query.mode
    let _limit := query.limit.getD 100
    let results := match query.mode with
      | .And => mockAndResults now query.keywords
      | .Or => mockOrResults now query.keywords
    let results := dateFromStep query results
    let results := dateToStep query results
    let results := projectFilterStep query results
    let results := favoritesStep query results
    .ok results

/-- Midnight (start of day, UTC) of the day containing epoch second `t`:
`t.date_naive().and_hms_opt(0, 0, 0)`, i.e. flooring to a day boundary. -/
def startOfDay (t : Int) : Int :=
  secondsPerDay * Int.fdiv t secondsPerDay

/-- `SearchEngine::parse_relative_date`.  The regular expression
`^(\d+)\s+(day|days|week|weeks|month|months|year|years)\s+ago$` applied
to the trimmed lowercase input is modelled by whitespace tokenization:
on trimmed text the pattern matches exactly when the tokens are a
non-empty all-digit group, a unit word, and `ago`. -/
def parse_relative_date (now : Int) (relative_date : String) :
    Except String Int :=
  let relative_date_lower := strLower relative_date
  if relative_date_lower == "today" then
    .ok (startOfDay now)
  else if relative_date_lower == "yesterday" then
    .ok (startOfDay (now - secondsPerDay))
  else if relative_date_lower == "last week" then
    .ok (now - 7 * secondsPerDay)
  else if relative_date_lower == "last month" then
    .ok (now - 30 * secondsPerDay)
  else if relative_date_lower == "last year" then
    .ok (now - 365 * secondsPerDay)
  else
    let trimmed := strTrim relative_date_lower
    match splitWsTokens trimmed with
    | [numTok, unitTok, agoTok] =>
      if agoTok == "ago" && !numTok.data.isEmpty && numTok.data.all isDigitChar
          && (unitTok == "day" || unitTok == "days"
            || unitTok == "week" || unitTok == "weeks"
            || unitTok == "month" || unitTok == "months"
            || unitTok == "year" || unitTok == "years") then
        let number : Int := (digitsVal numTok.data : Nat)
        if number ≤ 0 then
          .error ("Invalid time value: " ++ toString number)
        else if unitTok == "day" || unitTok == "days" then
          .ok (now - number * secondsPerDay)
        else if unitTok == "week" || unitTok == "weeks" then
          .ok (now - number * (7 * secondsPerDay))
        else if unitTok == "month" || unitTok == "months" then
          .ok (now - number * 30 * secondsPerDay)
        else
          .ok (now - number * 365 * secondsPerDay)
      else
        .error ("Cannot parse relative date: " ++ relative_date)
    | _ => .error ("Cannot parse relative date: " ++ relative_date)

/-!
## Concrete fixtures

`testMessage` is the repository's own `create_test_message` test fixture;
`okConn` is a connected store whose execute succeeds; `echoConn` is a
connected store whose execute reports back the statement it was handed
(used to observe the SQL text a call passes to `execute`).
-/

def okConn : Conn :=
  { is_connected := true, execute := fun _ => .ok () }

def echoConn : Conn :=
  { is_connected := true, execute := fun q => .error q }

def testMessage : ClaudeMessage :=
  { parent_uuid := none, is_sidechain := false, user_type := "external"
  , cwd := "/test/path", session_id := "session123", version := "1.0.0"
  , git_branch := some "main", message_type := "user"
  , message := { role := some "user", content := some "\"Test message\""
               , id := none, content_type := none, model := none }
  , uuid := "test-uuid-123", timestamp := 0 }

/-- `testMessage` with payload text `"alpha"`. -/
def testMessageAlpha : ClaudeMessage :=
  { testMessage with message := { testMessage.message with content := some "\"alpha\"" } }

/-- `testMessage` with payload text `"beta"` — differs from
`testMessageAlpha` only in the user-supplied content field. -/
def testMessageBeta : ClaudeMessage :=
  { testMessage with message := { testMessage.message with content := some "\"beta\"" } }

/-- `testMessage` under a second, distinct uuid. -/
def testMessage2 : ClaudeMessage :=
  { testMessage with uuid := "test-uuid-456" }

/-- A query setting both project filter fields at once. -/
def bothFiltersQuery : SearchQuery :=
  { SearchQuery.default with
      keywords := ["test"],
      project_filter := some "/old/project",
      project_filters := some ["/test/project"] }

/-- The retry configuration of the repository's retry tests. -/
def retryCfg : ConnectionConfig :=
  { ConnectionConfig.default with max_retries := 3, retry_delay_ms := 10 }

/-!
## Claim theorems
-/

/-- Claim C1 (code bug): the statement text handed to `execute` is NOT a
fixed value-bound template — `import_single_conversation` and
`update_conversation` splice the user-supplied text fields into the SQL
by string interpolation.  Two messages differing only in the payload text
produce different statement texts, the payload appears verbatim inside
the INSERT statement, and the statements the two calls pass to the
connection's `execute` are exactly these interpolated strings. -/
theorem insert_update_statements_interpolate :
    insertQuery testMessageAlpha "/test/project"
      ≠ insertQuery testMessageBeta "/test/project"
    ∧ strContains (insertQuery testMessageAlpha "/test/project") "alpha" = true
    ∧ updateQuery testMessageAlpha "/test/project"
      ≠ updateQuery testMessageBeta "/test/project"
    ∧ import_single_conversation echoConn testMessageAlpha "/test/project"
      = .error (insertQuery testMessageAlpha "/test/project")
    ∧ update_conversation echoConn testMessageAlpha "/test/project"
      = .error (updateQuery testMessageAlpha "/test/project") :=
  ⟨by decide, by decide, by decide, rfl, rfl⟩

/-- Claim C2 (code bug): `check_uuid_exists` is a stub that answers
`Ok(false)` for every uuid on a connected store, so upserting a message
whose uuid is already stored still takes the insert path: ingesting the
same message a second time again yields `Inserted`, never `Updated`. -/
theorem duplicate_uuid_takes_insert_path :
    check_uuid_exists okConn testMessage.uuid = .ok false
    ∧ import_with_duplicate_check okConn testMessage "/test/project"
      = .ok .Inserted
    ∧ import_with_duplicate_check okConn testMessage "/test/project"
      ≠ .ok .Updated :=
  ⟨rfl, by decide, by decide⟩

/-- Claim C3 counterexample: with `now` one day and one hour past the
epoch, `parse_relative_date "yesterday"` returns the epoch (midnight of
the previous day), not `now - 1 day = 3600`: the code truncates
"yesterday" to midnight, contradicting the claim's "without truncation to
midnight". -/
theorem yesterday_truncated_counterexample :
    parse_relative_date 90000 "yesterday" = Except.ok 0
    ∧ (90000 : Int) - secondsPerDay ≠ 0 :=
  ⟨rfl, by decide⟩

/-- Claim C3 (amended): `parse_relative_date` maps the case-insensitive
literal "today" to the start of the current day; "yesterday" to the start
of the PREVIOUS day (midnight, i.e. `now - 1 day` truncated to midnight);
and "last week", "last month", "last year" to `now` minus 7, 30, 365 days
respectively without truncation to midnight. -/
theorem parse_relative_date_literals (now : Int) :
    parse_relative_date now "today" = .ok (startOfDay now)
    ∧ parse_relative_date now "ToDay" = .ok (startOfDay now)
    ∧ parse_relative_date now "yesterday" = .ok (startOfDay (now - secondsPerDay))
    ∧ parse_relative_date now "YESTERDAY" = .ok (startOfDay (now - secondsPerDay))
    ∧ parse_relative_date now "last week" = .ok (now - 7 * secondsPerDay)
    ∧ parse_relative_date now "Last Month" = .ok (now - 30 * secondsPerDay)
    ∧ parse_relative_date now "last year" = .ok (now - 365 * secondsPerDay) :=
  ⟨rfl, rfl, rfl, rfl, rfl, rfl, rfl⟩

/-- Claim C8 counterexample: both `is_connected` implementations answer
`false` on a poisoned lock — exactly the ordinary "not connected" answer
a healthy disconnected connection gives — so the poisoning is silently
converted, not surfaced as a distinct fatal error. -/
theorem is_connected_poison_counterexample :
    DuckDBConnector.is_connected LockState.poisoned = false
    ∧ DuckDBConnector.is_connected (LockState.acquired false) = false
    ∧ RealDuckDBConnection.is_connected LockState.poisoned = false
    ∧ RealDuckDBConnection.is_connected (LockState.acquired none) = false :=
  ⟨rfl, rfl, rfl, rfl⟩

/-- Claim C8 (amended): `connect` and `disconnect` on both connections,
and the real connection's `execute`, surface a poisoned lock as a
distinct "Lock poisoned" error; `is_connected`, however, silently maps a
poisoned lock to `false`, and the mock connector's `execute` consequently
reports the ordinary "Not connected to database" error on a poisoned
lock. -/
theorem lock_poison_handling :
    DuckDBConnector.connect LockState.poisoned = .error "Lock poisoned"
    ∧ DuckDBConnector.disconnect LockState.poisoned = .error "Lock poisoned"
    ∧ RealDuckDBConnection.connect LockState.poisoned = .error "Lock poisoned"
    ∧ RealDuckDBConnection.disconnect LockState.poisoned = .error "Lock poisoned"
    ∧ RealDuckDBConnection.execute LockState.poisoned "SELECT 1" = .error "Lock poisoned"
    ∧ DuckDBConnector.is_connected LockState.poisoned = false
    ∧ DuckDBConnector.execute LockState.poisoned "SELECT 1"
      = .error "Not connected to database" :=
  ⟨rfl, rfl, rfl, rfl, rfl, rfl, rfl⟩

/-- Claim C10: `search` checks connectivity first — on a disconnected
store every query, the empty-keywords one included, yields the
"Database not connected" error rather than a result. -/
theorem search_requires_connection (ex : String → Except String Unit)
    (now : Int) (query : SearchQuery) :
    search { is_connected := false, execute := ex } now query
      = .error "Database not connected" :=
  rfl

/-- One collected pair per non-blank line: the collect-all walk keeps
exactly the non-blank lines. -/
lemma skipErrorsGo_length (parse : String → Except String ClaudeMessage) :
    ∀ (docLines : List String) (n : Nat),
    (skipErrorsGo parse n docLines).length
      = (docLines.filter (fun l => !strIsEmpty (strTrim l))).length := by
  intro docLines
  induction docLines with
  | nil => intro n; rfl
  | cons l rest ih =>
    intro n
    by_cases h : strIsEmpty (strTrim l)
    · simp [skipErrorsGo, List.filter_cons, h, ih]
    · simp [skipErrorsGo, List.filter_cons, h, ih]

/-- The error pairs are exactly the non-blank lines whose decode fails. -/
lemma skipErrorsGo_errors (parse : String → Except String ClaudeMessage) :
    ∀ (docLines : List String) (n : Nat),
    ((skipErrorsGo parse n docLines).filter (fun p => !p.2.isOk)).length
      = (docLines.filter
          (fun l => !strIsEmpty (strTrim l) && !(parse (strTrim l)).isOk)).length := by
  intro docLines
  induction docLines with
  | nil => intro n; rfl
  | cons l rest ih =>
    intro n
    by_cases h : strIsEmpty (strTrim l)
    · simp [skipErrorsGo, List.filter_cons, h, ih]
    · by_cases he : (parse (strTrim l)).isOk
      · simp [skipErrorsGo, List.filter_cons, h, he, ih]
      · simp [skipErrorsGo, List.filter_cons, h, he, ih]

/-- The collect-all walk from index `n` is the filterMap of the
enumeration from `n`. -/
lemma skipErrorsGo_enumFrom (parse : String → Except String ClaudeMessage) :
    ∀ (docLines : List String) (n : Nat),
    skipErrorsGo parse n docLines
      = (List.enumFrom n docLines).filterMap
          (fun p => if strIsEmpty (strTrim p.2) then none
                    else some (p.1 + 1, parse (strTrim p.2))) := by
  intro docLines
  induction docLines with
  | nil => intro n; rfl
  | cons l rest ih =>
    intro n
    by_cases h : strIsEmpty (strTrim l)
    · simp [skipErrorsGo, List.enumFrom, List.filterMap_cons, h, ih]
    · simp [skipErrorsGo, List.enumFrom, List.filterMap_cons, h, ih]

/-- Every collected line number exceeds the walk's start index. -/
lemma skipErrorsGo_fst_gt (parse : String → Except String ClaudeMessage) :
    ∀ (docLines : List String) (n : Nat) (p : Nat × Except String ClaudeMessage),
    p ∈ skipErrorsGo parse n docLines → n < p.1 := by
  intro docLines
  induction docLines with
  | nil => intro n p hp; simp [skipErrorsGo] at hp
  | cons l rest ih =>
    intro n p hp
    by_cases h : strIsEmpty (strTrim l)
    · simp only [skipErrorsGo, h, if_pos] at hp
      exact Nat.lt_of_succ_lt (ih (n + 1) p hp)
    · simp only [skipErrorsGo, h, if_neg, Bool.false_eq_true, not_false_iff,
        List.mem_cons] at hp
      rcases hp with hp | hp
      · subst hp; exact Nat.lt_succ_self n
      · exact Nat.lt_of_succ_lt (ih (n + 1) p hp)

/-- Collected line numbers are strictly increasing (input order). -/
lemma skipErrorsGo_pairwise (parse : String → Except String ClaudeMessage) :
    ∀ (docLines : List String) (n : Nat),
    (skipErrorsGo parse n docLines).Pairwise (fun p q => p.1 < q.1) := by
  intro docLines
  induction docLines with
  | nil => intro n; exact List.Pairwise.nil
  | cons l rest ih =>
    intro n
    by_cases h : strIsEmpty (strTrim l)
    · simpa [skipErrorsGo, h] using ih (n + 1)
    · simp only [skipErrorsGo, h, if_neg, Bool.false_eq_true, not_false_iff]
      exact List.Pairwise.cons
        (fun q hq => skipErrorsGo_fst_gt parse rest (n + 1) q hq) (ih (n + 1))

/-- Claim C4: collect-all decoding returns exactly one pair per non-blank
line (a document with `docLines.length` lines and K malformed non-blank
lines yields `length - blanks` pairs of which exactly K are errors),
each pair carries the 1-based position of its line in the original
document (blank lines still advance the numbering), pairs appear in
input order (strictly increasing line numbers), and the walk never stops
on a decode error. -/
theorem skip_errors_spec (parse : String → Except String ClaudeMessage)
    (docLines : List String) :
    (parse_multiple_messages_skip_errors parse docLines).length
      = (docLines.filter (fun l => !strIsEmpty (strTrim l))).length
    ∧ ((parse_multiple_messages_skip_errors parse docLines).filter
          (fun p => !p.2.isOk)).length
      = (docLines.filter
          (fun l => !strIsEmpty (strTrim l) && !(parse (strTrim l)).isOk)).length
    ∧ parse_multiple_messages_skip_errors parse docLines
      = docLines.enum.filterMap
          (fun p => if strIsEmpty (strTrim p.2) then none
                    else some (p.1 + 1, parse (strTrim p.2)))
    ∧ (parse_multiple_messages_skip_errors parse docLines).Pairwise
        (fun p q => p.1 < q.1) := by
  refine ⟨skipErrorsGo_length parse docLines 0,
          skipErrorsGo_errors parse docLines 0, ?_,
          skipErrorsGo_pairwise parse docLines 0⟩
  simpa [List.enum] using skipErrorsGo_enumFrom parse docLines 0

/-- Claim C5: in `search`'s project filtering, a set non-empty
`project_filters` retains exactly the candidates whose `project_path` is
in the list and makes `project_filter` irrelevant; a set EMPTY
`project_filters` applies no project restriction at all (identical to
both fields unset, and `project_filter` is still ignored); with
`project_filters` unset and `project_filter = Some p`, exactly the
candidates whose `project_path` equals `p` are retained. -/
theorem project_filter_spec (query : SearchQuery) (results : List SearchResult) :
    (∀ ps, query.project_filters = some ps → ps ≠ [] →
      projectFilterStep query results
        = results.filter (fun r => ps.contains r.project_path)
      ∧ (∀ r, r ∈ projectFilterStep query results
          ↔ r ∈ results ∧ ps.contains r.project_path = true)
      ∧ (∀ pf, projectFilterStep { query with project_filter := pf } results
          = projectFilterStep query results))
    ∧ (query.project_filters = some [] →
      projectFilterStep query results = results
      ∧ projectFilterStep
          { query with project_filters := none, project_filter := none } results
        = results
      ∧ (∀ pf, projectFilterStep { query with project_filter := pf } results
          = results))
    ∧ (∀ p, query.project_filters = none → query.project_filter = some p →
      projectFilterStep query results
        = results.filter (fun r => r.project_path == p)) := by
  refine ⟨?_, ?_, ?_⟩
  · intro ps hps hne
    have hemp : ps.isEmpty = false := by
      cases ps with
      | nil => exact absurd rfl hne
      | cons a t => rfl
    refine ⟨?_, ?_, ?_⟩
    · simp [projectFilterStep, hps, hemp]
    · intro r
      simp [projectFilterStep, hps, hemp, List.mem_filter]
    · intro pf
      simp [projectFilterStep, hps, hemp]
  · intro hps
    refine ⟨?_, ?_, ?_⟩
    · simp [projectFilterStep, hps]
    · simp [projectFilterStep]
    · intro pf
      simp [projectFilterStep, hps]
  · intro p hps hpf
    simp [projectFilterStep, hps, hpf]

/-- Witness for C5 on the repository's own both-filters-set query:
the non-empty `project_filters` list decides retention. -/
theorem project_filter_spec_witness :
    projectFilterStep bothFiltersQuery [mockAndHit1 0, mockAndHit3 0]
      = [mockAndHit1 0] :=
  (((project_filter_spec bothFiltersQuery [mockAndHit1 0, mockAndHit3 0]).1
      ["/test/project"] rfl (by decide)).1).trans (by decide)

/-- Claim C7: on a connected store, a query with an empty keyword list
returns the empty result set, and `search`'s answer never depends on the
connection's `execute` capability — no statement is executed against the
store. -/
theorem search_empty_keywords (ex ex' : String → Except String Unit)
    (now : Int) (query : SearchQuery) (h : query.keywords = []) :
    search { is_connected := true, execute := ex } now query = .ok []
    ∧ search { is_connected := true, execute := ex } now query
      = search { is_connected := true, execute := ex' } now query := by
  constructor
  · simp [search, h]
  · rfl

/-- Witness for C7 at the default query (empty keyword list). -/
theorem search_empty_keywords_witness :
    search { is_connected := true, execute := fun _ => Except.ok () } 0
        SearchQuery.default = .ok []
    ∧ search { is_connected := true, execute := fun _ => Except.ok () } 0
        SearchQuery.default
      = search { is_connected := true, execute := fun _ => Except.error "down" } 0
          SearchQuery.default :=
  search_empty_keywords (fun _ => Except.ok ()) (fun _ => Except.error "down")
    0 SearchQuery.default rfl

/-- Each message's outcome lands in exactly one counter: one loop step
raises the four counters' total by exactly one, whatever the outcome. -/
lemma bulkStep_sum (conn : Conn) (project_path : String)
    (stats : ImportStats) (message : ClaudeMessage) :
    (bulkStep conn project_path stats message).inserted
      + (bulkStep conn project_path stats message).updated
      + (bulkStep conn project_path stats message).skipped
      + (bulkStep conn project_path stats message).errors
    = stats.inserted + stats.updated + stats.skipped + stats.errors + 1 := by
  unfold bulkStep
  rcases h : import_with_duplicate_check conn message project_path with e | a
  · simp only [h]; omega
  · cases a <;> simp only [h] <;> omega

/-- Folding the loop over any message list raises the counters' total by
the list length — no message is dropped, none is double counted. -/
lemma bulkFold_sum (conn : Conn) (project_path : String) :
    ∀ (messages : List ClaudeMessage) (init : ImportStats),
    (messages.foldl (bulkStep conn project_path) init).inserted
      + (messages.foldl (bulkStep conn project_path) init).updated
      + (messages.foldl (bulkStep conn project_path) init).skipped
      + (messages.foldl (bulkStep conn project_path) init).errors
    = init.inserted + init.updated + init.skipped + init.errors
      + messages.length := by
  intro messages
  induction messages with
  | nil => intro init; simp
  | cons m rest ih =>
    intro init
    have := bulkStep_sum conn project_path init m
    simp only [List.foldl_cons, List.length_cons]
    rw [ih (bulkStep conn project_path init m)]
    omega

/-- On a connected store whose execute succeeds, the (stubbed) uuid
lookup answers "absent", so every upsert takes the insert path. -/
lemma import_with_duplicate_check_inserts (conn : Conn)
    (h1 : conn.is_connected = true)
    (h2 : ∀ q, conn.execute q = .ok ())
    (message : ClaudeMessage) (project_path : String) :
    import_with_duplicate_check conn message project_path = .ok .Inserted := by
  simp [import_with_duplicate_check, check_uuid_exists,
    import_single_conversation, h1, h2]

/-- On a connected, succeeding store the loop only increments `inserted`. -/
lemma bulkFold_all_inserted (conn : Conn) (project_path : String)
    (h1 : conn.is_connected = true)
    (h2 : ∀ q, conn.execute q = .ok ()) :
    ∀ (messages : List ClaudeMessage) (init : ImportStats),
    messages.foldl (bulkStep conn project_path) init
      = { init with inserted := init.inserted + messages.length } := by
  intro messages
  induction messages with
  | nil => intro init; simp
  | cons m rest ih =>
    intro init
    have hstep : bulkStep conn project_path init m
        = { init with inserted := init.inserted + 1 } := by
      simp [bulkStep, import_with_duplicate_check_inserts conn h1 h2]
    simp only [List.foldl_cons, List.length_cons, hstep,
      ih { init with inserted := init.inserted + 1 }]
    congr 1
    omega

/-- Claim C6: `bulk_import` processes every message — the loop always
completes with `inserted + updated + skipped + errors` equal to the
number of messages, so a failing upsert only moves its own message into
`errors` and never aborts the rest; on a connected store whose execute
succeeds (an empty store, under the stubbed lookup) a batch of messages
with pairwise-distinct uuids is counted entirely as `inserted`, with
`updated = 0` and `total_processed` equal to the batch size. -/
theorem bulk_import_spec (conn : Conn) (messages : List ClaudeMessage)
    (project_path : String) :
    (∃ stats, bulk_import conn messages project_path = Except.ok stats
      ∧ stats.inserted + stats.updated + stats.skipped + stats.errors
        = messages.length)
    ∧ (conn.is_connected = true → (∀ q, conn.execute q = Except.ok ()) →
      List.Pairwise (fun a b => a.uuid ≠ b.uuid) messages →
      bulk_import conn messages project_path
        = Except.ok { inserted := messages.length, updated := 0
                    , skipped := 0, errors := 0 }
      ∧ ImportStats.total_processed
          { inserted := messages.length, updated := 0, skipped := 0, errors := 0 }
        = messages.length) := by
  constructor
  · refine ⟨messages.foldl (bulkStep conn project_path) ImportStats.new, rfl, ?_⟩
    have := bulkFold_sum conn project_path messages ImportStats.new
    simpa [ImportStats.new] using this
  · intro h1 h2 _
    constructor
    · have := bulkFold_all_inserted conn project_path h1 h2 messages ImportStats.new
      simp only [bulk_import, this]
      simp [ImportStats.new]
    · simp [ImportStats.total_processed]

/-- Witness for C6: two distinct-uuid messages against the connected
succeeding store are both inserted. -/
theorem bulk_import_spec_witness :
    bulk_import okConn [testMessage, testMessage2] "/test/project"
      = Except.ok { inserted := 2, updated := 0, skipped := 0, errors := 0 }
    ∧ ImportStats.total_processed
        { inserted := 2, updated := 0, skipped := 0, errors := 0 } = 2 :=
  (bulk_import_spec okConn [testMessage, testMessage2] "/test/project").2
    rfl (fun _ => rfl) (by decide)

/-- Behaviour of the retry loop from iteration `attempts` with
`fuel = max_retries - attempts` loop iterations left: the attempt count
is bounded by `max_retries`; each sleep before the (k+1)-th attempt lasts
`retry_delay_ms * k`; the loop returns success at the first succeeding
attempt; and if every remaining attempt fails it returns an error after
exactly `max_retries` attempts. -/
lemma retryFrom_spec (cfg : ConnectionConfig) (oracle : Nat → Bool) :
    ∀ (fuel attempts : Nat), attempts + fuel = cfg.max_retries →
    attempts ≤ (retryFrom cfg oracle attempts fuel).2.1
    ∧ (0 < fuel → attempts + 1 ≤ (retryFrom cfg oracle attempts fuel).2.1)
    ∧ (retryFrom cfg oracle attempts fuel).2.1 ≤ cfg.max_retries
    ∧ (retryFrom cfg oracle attempts fuel).2.2
      = (List.range' (attempts + 1)
          ((retryFrom cfg oracle attempts fuel).2.1 - 1 - attempts)).map
          (fun j => cfg.retry_delay_ms * j)
    ∧ (∀ k, attempts ≤ k → k < cfg.max_retries → oracle k = true →
        (∀ j, attempts ≤ j → j < k → oracle j = false) →
        (retryFrom cfg oracle attempts fuel).1 = .ok ()
        ∧ (retryFrom cfg oracle attempts fuel).2.1 = k + 1)
    ∧ ((∀ k, attempts ≤ k → k < cfg.max_retries → oracle k = false) →
        (∃ e, (retryFrom cfg oracle attempts fuel).1 = .error e)
        ∧ (retryFrom cfg oracle attempts fuel).2.1 = cfg.max_retries) := by
  intro fuel
  induction fuel with
  | zero =>
    intro attempts h
    simp only [retryFrom]
    refine ⟨Nat.le_refl _, by omega, by omega, by simp, ?_, ?_⟩
    · intro k hk1 hk2 _ _
      omega
    · intro _
      exact ⟨⟨_, rfl⟩, by omega⟩
  | succ fuel ih =>
    intro attempts h
    by_cases ho : oracle attempts = true
    · simp only [retryFrom, ho, if_pos]
      refine ⟨Nat.le_succ _, fun _ => Nat.le_refl _, by omega, by simp, ?_, ?_⟩
      · intro k hk1 hk2 hk3 hk4
        rcases Nat.eq_or_lt_of_le hk1 with hk | hk
        · exact ⟨by trivial, by omega⟩
        · exact absurd ho (by simp [hk4 attempts (Nat.le_refl _) hk])
      · intro hall
        exact absurd ho (by simp [hall attempts (Nat.le_refl _) (by omega)])
    · have ho' : oracle attempts = false := by
        cases hx : oracle attempts
        · rfl
        · exact absurd hx ho
      by_cases hm : cfg.max_retries ≤ attempts + 1
      · simp only [retryFrom, ho', Bool.false_eq_true, if_neg, if_pos hm,
          not_false_iff]
        refine ⟨Nat.le_succ _, fun _ => Nat.le_refl _, by omega, by simp, ?_, ?_⟩
        · intro k hk1 hk2 hk3 _
          have : k = attempts := by omega
          subst this
          exact absurd hk3 (by simp [ho'])
        · intro _
          exact ⟨⟨_, rfl⟩, by omega⟩
      · have hrec := ih (attempts + 1) (by omega)
        have hfuel : 0 < fuel := by omega
        simp only [retryFrom, ho', Bool.false_eq_true, if_neg, if_neg hm,
          not_false_iff]
        obtain ⟨h1, h2, h3, h4, h5, h6⟩ := hrec
        have h2' := h2 hfuel
        refine ⟨by omega, fun _ => by omega, h3, ?_, ?_, ?_⟩
        · have hlen : (retryFrom cfg oracle (attempts + 1) fuel).2.1 - 1 - attempts
              = ((retryFrom cfg oracle (attempts + 1) fuel).2.1 - 1
                  - (attempts + 1)) + 1 := by
            omega
          rw [hlen, List.range'_succ, List.map_cons]
          exact congrArg _ h4
        · intro k hk1 hk2 hk3 hk4
          have hk1' : attempts + 1 ≤ k := by
            rcases Nat.eq_or_lt_of_le hk1 with hk | hk
            · exact absurd hk3 (by simp [← hk, ho'])
            · omega
          exact h5 k hk1' hk2 hk3 (fun j hj1 hj2 => hk4 j (by omega) hj2)
        · intro hall
          exact h6 (fun k hk1 hk2 => hall k (by omega) hk2)

/-- Claim C9: `connect_with_retry` makes at most `max_retries` connection
attempts; the sleep before the (k+1)-th attempt lasts
`retry_delay_ms * k` milliseconds (linearly increasing backoff); it
returns success at the first succeeding attempt, after exactly that many
attempts; and when every permitted attempt fails it returns an error
after exactly `max_retries` attempts, with no further retries. -/
theorem connect_with_retry_spec (cfg : ConnectionConfig) (oracle : Nat → Bool) :
    (connect_with_retry cfg oracle).2.1 ≤ cfg.max_retries
    ∧ (connect_with_retry cfg oracle).2.2
      = (List.range' 1 ((connect_with_retry cfg oracle).2.1 - 1)).map
          (fun j => cfg.retry_delay_ms * j)
    ∧ (∀ k, k < cfg.max_retries → oracle k = true →
        (∀ j, j < k → oracle j = false) →
        (connect_with_retry cfg oracle).1 = .ok ()
        ∧ (connect_with_retry cfg oracle).2.1 = k + 1)
    ∧ ((∀ k, k < cfg.max_retries → oracle k = false) →
        (∃ e, (connect_with_retry cfg oracle).1 = .error e)
        ∧ (connect_with_retry cfg oracle).2.1 = cfg.max_retries) := by
  obtain ⟨h1, h2, h3, h4, h5, h6⟩ :=
    retryFrom_spec cfg oracle cfg.max_retries 0 (by omega)
  refine ⟨h3, ?_, ?_, ?_⟩
  · simpa using h4
  · intro k hk2 hk3 hk4
    exact h5 k (Nat.zero_le k) hk2 hk3 (fun j _ hj2 => hk4 j hj2)
  · intro hall
    exact h6 (fun k _ hk2 => hall k hk2)

/-- Witness for C9: with three permitted attempts and a 10ms base delay,
an always-failing connection is abandoned after exactly three attempts,
and a connection succeeding on its second attempt is reported as success
after exactly two attempts. -/
theorem connect_with_retry_spec_witness :
    ((∃ e, (connect_with_retry retryCfg (fun _ => false)).1 = Except.error e)
      ∧ (connect_with_retry retryCfg (fun _ => false)).2.1 = 3)
    ∧ ((connect_with_retry retryCfg (fun k => decide (1 ≤ k))).1 = Except.ok ()
      ∧ (connect_with_retry retryCfg (fun k => decide (1 ≤ k))).2.1 = 2) := by
  constructor
  · exact (connect_with_retry_spec retryCfg (fun _ => false)).2.2.2
      (fun _ _ => rfl)
  · exact (connect_with_retry_spec retryCfg (fun k => decide (1 ≤ k))).2.2.1
      1 (by decide) (by decide)
      (fun j hj => by
        simp only [decide_eq_false_iff_not]
        omega)

end CcVault
